import Mathlib

/-!
Verification of the filehandling-walter retrieval pipeline.

Shallow embedding of the repository's Python sources:
  - `DataRetrieval/RetrievalComponent.py`  (RetrievalComponent)
  - `DataRetrieval/ReRanker.py`            (ReRankerComponent)
  - `DataRetrieval/Retrieval.py`           (Retrieval pipeline)
  - `llm_routers/KnowledgeRouter.py`       (KnowledgeRouter)
  - `DataUploading/pdfAdding.py`           (PdfUploading)
  - `DataUploading/VectorDBStoring.py`     (VectorDBStroing)

External collaborators (Chroma retriever, cross-encoder ranker, OpenAI
generator, structured-output LLM) are parameters of the embedded functions;
where a claim needs their behaviour, they are instantiated by a model
written from the contract stated in the specification (sections 4.1 and 6).
Python exceptions are embedded as `Except PyErr`; mutation of instance
attributes is embedded as explicit state passing.
-/

namespace Walter

/-- A document as used by the pipeline: text content plus the metadata
fields the code reads or writes (`source`, `userid`, `Page`, `Image`,
`summary`). -/
structure Document where
  content : String
  source : String
  userid : String
  page : Option Nat := none
  image : String := "No"
  summary : String := "no"
deriving DecidableEq, Repr

/-- A Python exception, carrying `type(e).__name__` and `str(e)`. -/
structure PyErr where
  typeName : String
  msg : String
deriving DecidableEq, Repr

/-- The line written by `error_logger.error` in every `except` block:
`f"An unexpected e occurred: {type(e).__name__, str(e)}"`. -/
def errorLogLine (e : PyErr) : String :=
  "An unexpected e occurred: (" ++ e.typeName ++ ", " ++ e.msg ++ ")"

/-! ## Chroma metadata filters

`RetrievalComponent.run` passes a filter dictionary
`{"operator": "OR", "conditions": [{"field": "source", "operator": "==",
"value": name}, {"field": "userid", "operator": "==", "value": userid}]}`.
The AST below mirrors that dictionary shape; `evalFilter` is the document
store contract of spec section 4.1 (a boolean predicate over the metadata
fields `source` and `userid`). -/

structure FilterCondition where
  field : String
  op : String
  value : String
deriving DecidableEq, Repr

structure Filter where
  operator : String
  conditions : List FilterCondition
deriving DecidableEq, Repr

/-- Look up a metadata field of a document by name. -/
def Document.metaField (d : Document) (f : String) : Option String :=
  if f = "source" then some d.source
  else if f = "userid" then some d.userid
  else none

def evalCondition (d : Document) (c : FilterCondition) : Bool :=
  if c.op = "==" then d.metaField c.field == some c.value else false

def evalFilter (f : Filter) (d : Document) : Bool :=
  if f.operator = "OR" then f.conditions.any (evalCondition d)
  else if f.operator = "AND" then f.conditions.all (evalCondition d)
  else false

/-- The filter literal built inside `RetrievalComponent.run`
(RetrievalComponent.py lines 58-64). -/
def retrievalFilter (name userid : String) : Filter :=
  { operator := "OR",
    conditions := [⟨"source", "==", name⟩, ⟨"userid", "==", userid⟩] }

/-! ## RetrievalComponent (DataRetrieval/RetrievalComponent.py) -/

/-- One entry of `question_context_pairs`:
`{"question": query, "documents": result["documents"]}`. -/
structure QCPair where
  question : String
  documents : List Document
deriving DecidableEq, Repr

/-- The output dictionary of `RetrievalComponent.run`. -/
structure RetrievalOutput where
  question_context_pairs : List QCPair
  documents : List Document
deriving DecidableEq, Repr

/-- The external `ChromaQueryTextRetriever.run`: query text, `top_k`,
filters; may raise. -/
def Retriever : Type :=
  String → Nat → Filter → Except PyErr (List Document)

/-- Instance state of a `RetrievalComponent`
(`question_context_pairs`, `documents`, `top_k`). -/
structure RetrievalComponent where
  question_context_pairs : List QCPair
  documents : List Document
  top_k : Nat
deriving DecidableEq, Repr

/-- `RetrievalComponent.__init__(retriever, top_k=10)`: both lists start
empty. -/
def RetrievalComponent.init (top_k : Nat := 10) : RetrievalComponent :=
  { question_context_pairs := [], documents := [], top_k := top_k }

/-- The `Union[str, List[str]]` type of the `queries` argument. -/
inductive StrOrList where
  | str (s : String)
  | list (l : List String)
deriving DecidableEq, Repr

/-- `if type(queries) == str: queries = [queries]`. -/
def StrOrList.toList : StrOrList → List String
  | .str s => [s]
  | .list l => l

/-- Result of running one stage: the instance state after the call (Python
mutates `self` even when an exception escapes), the entries written to the
error logger, and either the returned value or the propagated exception. -/
structure StageResult (σ : Type) (α : Type) where
  state : σ
  errorLog : List String
  result : Except PyErr α
deriving Repr

/-- The `for query in queries` loop of `RetrievalComponent.run`: each
iteration calls the retriever with the OR filter, extends `self.documents`
and appends to `self.question_context_pairs`; the first exception aborts
the loop (state keeps the extensions already made). -/
def retrieveLoop (retrieve : Retriever) (name userid : String) (k : Nat)
    (s : RetrievalComponent) :
    List String → RetrievalComponent × Option PyErr
  | [] => (s, none)
  | q :: qs =>
    match retrieve q k (retrievalFilter name userid) with
    | .error e => (s, some e)
    | .ok docs =>
        retrieveLoop retrieve name userid k
          { s with
            documents := s.documents ++ docs,
            question_context_pairs :=
              s.question_context_pairs ++ [⟨q, docs⟩] } qs

/-- `RetrievalComponent.run(queries, name, userid, top_k=None)`:
normalises `queries`, overwrites `self.top_k` when an override is given,
loops over the queries, and returns
`{"question_context_pairs": ..., "documents": ...}`; on an exception it
logs `errorLogLine` and re-raises. -/
def RetrievalComponent.run (retrieve : Retriever) (s : RetrievalComponent)
    (queries : StrOrList) (name userid : String) (top_k : Option Nat) :
    StageResult RetrievalComponent RetrievalOutput :=
  let s := match top_k with
    | some k => { s with top_k := k }
    | none => s
  match retrieveLoop retrieve name userid s.top_k s queries.toList with
  | (s1, none) =>
      ⟨s1, [], .ok ⟨s1.question_context_pairs, s1.documents⟩⟩
  | (s1, some e) =>
      ⟨s1, [errorLogLine e], .error e⟩

/-! ## ReRankerComponent (DataRetrieval/ReRanker.py) -/

/-- The output dictionary of `ReRankerComponent.run`:
`{"documents": self.documents}`. -/
structure RerankOutput where
  documents : List Document
deriving DecidableEq, Repr

/-- The external `TransformersSimilarityRanker.run`: query, candidate
documents, `top_k`; may raise. -/
def Ranker : Type :=
  String → List Document → Nat → Except PyErr (List Document)

/-- Instance state of a `ReRankerComponent` (`documents`, `top_k`). -/
structure ReRankerComponent where
  documents : List Document
  top_k : Nat
deriving DecidableEq, Repr

/-- `ReRankerComponent.__init__(ranker, top_k=3)`: the accumulating
`documents` list starts empty. -/
def ReRankerComponent.init (top_k : Nat := 3) : ReRankerComponent :=
  { documents := [], top_k := top_k }

/-- The `for pair in question_context_pairs` loop of
`ReRankerComponent.run`: each iteration unpacks the pair (via
`pair.items()`, i.e. the `question` and `documents` entries in insertion
order), calls the ranker, and extends `self.documents`; the first
exception aborts the loop. -/
def rerankLoop (rank : Ranker) (k : Nat) (s : ReRankerComponent) :
    List QCPair → ReRankerComponent × Option PyErr
  | [] => (s, none)
  | p :: ps =>
    match rank p.question p.documents k with
    | .error e => (s, some e)
    | .ok docs =>
        rerankLoop rank k { s with documents := s.documents ++ docs } ps

/-- `ReRankerComponent.run(question_context_pairs, top_k=None)`:
overwrites `self.top_k` when an override is given, loops over the pairs,
and returns `{"documents": self.documents}`; on an exception it logs
`errorLogLine` and re-raises. -/
def ReRankerComponent.run (rank : Ranker) (s : ReRankerComponent)
    (pairs : List QCPair) (top_k : Option Nat) :
    StageResult ReRankerComponent RerankOutput :=
  let s := match top_k with
    | some k => { s with top_k := k }
    | none => s
  match rerankLoop rank s.top_k s pairs with
  | (s1, none) => ⟨s1, [], .ok ⟨s1.documents⟩⟩
  | (s1, some e) => ⟨s1, [errorLogLine e], .error e⟩

/-! ## Model of the external relevance model

Spec section 6: `score(query, documents, top_k) -> documents` ordered by
descending relevance, truncated to `top_k`. Modelled by an insertion sort
on a caller-supplied score function followed by `take top_k`. -/

/-- Insert a document into a list already sorted by descending score. -/
def insertDesc (score : Document → Int) (d : Document) :
    List Document → List Document
  | [] => [d]
  | x :: xs =>
    if score x < score d then d :: x :: xs else x :: insertDesc score d xs

/-- Sort documents by descending score. -/
def sortDesc (score : Document → Int) : List Document → List Document
  | [] => []
  | d :: ds => insertDesc score d (sortDesc score ds)

/-- The relevance-model contract of spec section 6: order the candidate
documents by descending score against the query, keep the first `top_k`. -/
def modelRank (score : String → Document → Int) (q : String)
    (ds : List Document) (k : Nat) : List Document :=
  (sortDesc (score q) ds).take k

/-! ## Retrieval pipeline (DataRetrieval/Retrieval.py) -/

/-- `self.db_map` as built in `Retrieval.__init__`: the six category keys,
each bound to (the retriever over) its Chroma document store. A store is
represented by its query function. -/
def mkDbMap (edu sports politics env others images : Retriever) :
    List (String × Retriever) :=
  [("Education", edu), ("Sports", sports), ("Politics", politics),
   ("Environment", env), ("Others", others), ("Images", images)]

/-- The prompt template of `Retrieval.run` rendered on a query and the
reranked context documents. -/
def buildPrompt (query : String) (docs : List Document) : String :=
  "Answer the question given the context.\n" ++
  "Question: " ++ query ++ "\n" ++
  "Context:\n" ++
  String.join (docs.map (fun d => d.content ++ "\n")) ++
  "Answer:"

/-- `Retrieval.run(query, category, name, userid)`.
`document_store = self.db_map[category][0]` runs before the `try` block,
so an unknown category raises a `KeyError` that is not logged. Fresh
`RetrievalComponent` (default `top_k` 10) and `ReRankerComponent` (default
`top_k` 3) instances are built per call; the Haystack pipeline wiring
(`retriever -> ranker -> prompt.documents -> generator`) runs them in that
order; the return value is
`(replies[0], ranker output, retriever question_context_pairs)`.
The generative model is `generate`, returning the `replies` list; an empty
`replies` list makes `replies[0]` raise `IndexError` inside the `try`.
The first component of the result collects the error-logger lines of the
whole call (component logs followed by the pipeline-level log). -/
def Retrieval.run (db_map : List (String × Retriever)) (rank : Ranker)
    (generate : String → Except PyErr (List String))
    (query category name userid : String) :
    List String × Except PyErr (String × RerankOutput × List QCPair) :=
  match db_map.lookup category with
  | none => ([], .error ⟨"KeyError", category⟩)
  | some retrieve =>
    let retriever := RetrievalComponent.init
    let ranker := ReRankerComponent.init
    let rres := RetrievalComponent.run retrieve retriever (.str query)
      name userid none
    match rres.result with
    | .error e => (rres.errorLog ++ [errorLogLine e], .error e)
    | .ok rout =>
      let kres := ReRankerComponent.run rank ranker
        rout.question_context_pairs none
      match kres.result with
      | .error e =>
          (rres.errorLog ++ kres.errorLog ++ [errorLogLine e], .error e)
      | .ok kout =>
        match generate (buildPrompt query kout.documents) with
        | .error e =>
            (rres.errorLog ++ kres.errorLog ++ [errorLogLine e], .error e)
        | .ok [] =>
            let e : PyErr := ⟨"IndexError", "list index out of range"⟩
            (rres.errorLog ++ kres.errorLog ++ [errorLogLine e], .error e)
        | .ok (r :: _) =>
            (rres.errorLog ++ kres.errorLog,
             .ok (r, kout, rout.question_context_pairs))

/-! ## KnowledgeRouter (llm_routers/KnowledgeRouter.py) -/

/-- The `Union[InternalDataRequests, ConversationalResponse]` payload of a
`KnowledgeRouterResponse`. -/
inductive RouterResponse where
  | internalDataRequests (filename : Option String) (query : String)
      (filetype : Option String) (action : Option String)
  | conversationalResponse (response : String)
deriving DecidableEq, Repr

/-- The structured output of the core-meaning model call. -/
structure CoreMeaningQuery where
  core_meaning : String
deriving DecidableEq, Repr

/-- `KnowledgeRouter.run(query, chat_history)`. The first model call
(`structured_llm.invoke`) yields the router decision; when
`type(response) == InternalDataRequests` a second structured call
(`CoreMeaningQuery`) runs on `response.query` and its `core_meaning`
becomes `core_query`, else `core_query` stays `None`. Returns
`(response, core_query)`; the extra list records the inputs actually sent
to the second model, to observe whether that call happened. -/
def KnowledgeRouter.run
    (structured_llm : String → String → RouterResponse)
    (core_llm : String → CoreMeaningQuery)
    (query chat_history : String) :
    (RouterResponse × Option String) × List String :=
  let response := structured_llm query chat_history
  match response with
  | .internalDataRequests _ q _ _ =>
      ((response, some (core_llm q).core_meaning), [q])
  | .conversationalResponse _ => ((response, none), [])

/-! ## PdfUploading (DataUploading/pdfAdding.py) -/

/-- One page of the opened PDF: its text and the embedded images, each an
(extension, payload) pair as produced by `document.extract_image`. -/
structure PdfPage where
  text : String
  images : List (String × String)
deriving DecidableEq, Repr

/-- `name.split(".")[0]`. -/
def stripExt (name : String) : String :=
  (name.splitOn ".").headD name

/-- The `from_pdf` branch of `ImageHandling.run` (ImageHandling.py lines
234-241), with every image description succeeding: describes each payload,
joins the descriptions into `image_description`, and builds one Document
per image with metadata
`{"source": filename, "Page": pagenumber + 1, "Image": image_names[i],
"userid": user_id, "summary": "no"}`. -/
def ImageHandling.runFromPdf (describe : String → String)
    (payloads : List String) (pagenumber : Nat) (filename : String)
    (user_id : String) (image_names : List String) :
    List Document × String :=
  let results := payloads.map describe
  let image_description := String.intercalate "\n\n"
    (results.enum.map (fun (i, r) =>
      "Image " ++ toString i ++ "\n" ++ r ++ "\n"))
  let documents := results.enum.map (fun (i, r) =>
    ({ content := r, source := filename, userid := user_id,
       page := some (pagenumber + 1), image := image_names.getD i "",
       summary := "no" } : Document))
  (documents, image_description)

/-- The rollup-summary Document constructed at pdfAdding.py lines 126-127:
`{"source": name, "Page": None, "Image": "no", "userid": user_id,
"summary": "yes"}` with the refined summary as content. -/
def rollupSummaryDoc (name user_id refined : String) : Document :=
  { content := refined, source := stripExt name, userid := user_id,
    page := none, image := "no", summary := "yes" }

/-- `PdfUploading.extract_images_text(filepath, name, user_id)`: builds
`self.combined_text` (per page: one text Document, then the image
Documents returned by `ImageHandling.run`), accumulates per-page
summaries into `total_summary`, and computes
`self.refined_summary = summary(total_summary)`. The rollup-summary
Document of line 127 is bound to the local `page_info` and never appended
to `self.combined_text`; the embedding returns exactly the list the code
builds. Returns `(combined_text, refined_summary)`. -/
def extractImagesText (describe summarize : String → String)
    (name user_id : String) (pages : List PdfPage) :
    List Document × String :=
  let nm := stripExt name
  let step := fun (acc : List Document × String) (pi : Nat × PdfPage) =>
    let page_number := pi.1
    let pg := pi.2
    let metadataDoc : Document :=
      { content := pg.text, source := nm ++ ".pdf", userid := user_id,
        page := some (page_number + 1), image := "No", summary := "no" }
    let image_names := pg.images.enum.map (fun (image_index, img) =>
      nm ++ "_page_" ++ toString (page_number + 1) ++ "_image_" ++
        toString (image_index + 1) ++ "." ++ img.1)
    let ir := ImageHandling.runFromPdf describe (pg.images.map Prod.snd)
        (page_number + 1) nm user_id image_names
    (acc.1 ++ [metadataDoc] ++ ir.1,
     acc.2 ++ summarize (pg.text ++ "\n\n" ++ ir.2))
  let ct := pages.enum.foldl step ([], "")
  (ct.1, summarize ct.2)

/-- The non-self parameters of the definition of `extract_images_text`
(pdfAdding.py line 73). -/
def extractImagesTextParams : List String := ["filepath", "name", "user_id"]

/-- The positional arguments passed to `extract_images_text` at the call
site inside `PdfUploading.run` (pdfAdding.py line 243). -/
def extractImagesTextCallArgs : List String :=
  ["filepath", "extracted_images", "name", "user_id"]

/-- `PdfUploading.run(downloadUrl, name, user_id)` after the download
step: calls `extract_images_text`, then `text_splitter` (the external
`RecursiveCharacterTextSplitter`, a parameter here), then `category`, and
returns `(self.splits, self.refined_summary, category)`. The call at line
243 passes `extractImagesTextCallArgs` to a method whose signature has
`extractImagesTextParams`, so when the arities disagree Python raises a
`TypeError` before any extraction happens. -/
def PdfUploading.run (describe summarize : String → String)
    (split : List Document → List Document)
    (categorize : String → String) (name user_id : String)
    (pages : List PdfPage) :
    Except PyErr (List Document × String × String) :=
  if extractImagesTextCallArgs.length = extractImagesTextParams.length then
    let er := extractImagesText describe summarize name user_id pages
    .ok (split er.1, er.2, categorize er.2)
  else
    .error ⟨"TypeError",
      "extract_images_text() takes 4 positional arguments but 5 were given"⟩

/-! ## VectorDBStroing (DataUploading/VectorDBStoring.py) -/

/-- One persisted entry of the document store: identifier, collection
name, document. -/
structure GatewayEntry where
  id : Nat
  collection : String
  doc : Document
deriving DecidableEq, Repr

/-- The document-store state: the persisted entries and the
fresh-identifier supply. `uuid4` is modelled as this supply: each call
issues the next identifier, and `Fresh` states that every stored id was
issued earlier. -/
structure GatewayState where
  entries : List GatewayEntry
  nextId : Nat
deriving DecidableEq, Repr

/-- Every stored identifier precedes the supply counter. -/
def GatewayState.Fresh (s : GatewayState) : Prop :=
  ∀ e ∈ s.entries, e.id < s.nextId

instance (s : GatewayState) : Decidable s.Fresh := by
  unfold GatewayState.Fresh; infer_instance

/-- `uuids = [str(uuid4()) for _ in range(len(documents))]` under the
fresh-supply model: `n` consecutive unissued identifiers. -/
def freshIds (start n : Nat) : List Nat :=
  (List.range n).map (start + ·)

/-- `VectorDBStroing.load_vectorstore(vector_db, documents)`: draws one
fresh identifier per document and calls
`vector_db.add_documents(documents=documents, ids=uuids)`, which appends
the batch to the collection. Returns the new state and the issued ids. -/
def load_vectorstore (s : GatewayState) (collection : String)
    (documents : List Document) : GatewayState × List Nat :=
  let uuids := freshIds s.nextId documents.length
  ({ entries := s.entries ++
      (uuids.zip documents).map (fun (i, d) => ⟨i, collection, d⟩),
     nextId := s.nextId + documents.length },
   uuids)

/-- The six keys of `self.db_map` in `VectorDBStroing.__init__`. -/
def vdbCategories : List String :=
  ["Education", "Sports", "Politics", "Environment", "Others", "Images"]

/-- `VectorDBStroing.run(documents, category=None)`:
`self.db_map[category]` raises `KeyError` unless `category` is one of the
six keys; otherwise `load_vectorstore` stores the batch and the call
returns `"Success"`. -/
def VectorDBStroing.run (s : GatewayState) (documents : List Document)
    (category : Option String) :
    Except PyErr (GatewayState × List Nat × String) :=
  match category with
  | none => .error ⟨"KeyError", "None"⟩
  | some c =>
    if c ∈ vdbCategories then
      let r := load_vectorstore s c documents
      .ok (r.1, r.2, "Success")
    else .error ⟨"KeyError", c⟩

/-! ## Derived descriptions of successful stage runs -/

/-- Every retriever call made for the given queries (at `top_k = k`, with
the OR filter for `name`/`userid`) succeeds. -/
def RetrievesOk (retrieve : Retriever) (n u : String) (k : Nat)
    (qs : List String) : Prop :=
  ∀ q ∈ qs, (retrieve q k (retrievalFilter n u)).isOk

/-- The documents a successful pass over `qs` appends to
`self.documents`: the concatenated retriever results. -/
def retrievedDocs (retrieve : Retriever) (n u : String) (k : Nat) :
    List String → List Document
  | [] => []
  | q :: qs =>
    (match retrieve q k (retrievalFilter n u) with
     | .ok ds => ds
     | .error _ => []) ++ retrievedDocs retrieve n u k qs

/-- The entries a successful pass over `qs` appends to
`self.question_context_pairs`. -/
def retrievedPairs (retrieve : Retriever) (n u : String) (k : Nat) :
    List String → List QCPair
  | [] => []
  | q :: qs =>
    (match retrieve q k (retrievalFilter n u) with
     | .ok ds => [⟨q, ds⟩]
     | .error _ => []) ++ retrievedPairs retrieve n u k qs

/-- Every ranker call made for the given pairs (at `top_k = k`)
succeeds. -/
def RanksOk (rank : Ranker) (k : Nat) (ps : List QCPair) : Prop :=
  ∀ p ∈ ps, (rank p.question p.documents k).isOk

/-- The documents a successful pass over `ps` appends to
`self.documents`: the concatenated ranker results. -/
def rerankedDocs (rank : Ranker) (k : Nat) : List QCPair → List Document
  | [] => []
  | p :: ps =>
    (match rank p.question p.documents k with
     | .ok ds => ds
     | .error _ => []) ++ rerankedDocs rank k ps

/-! ## Helper lemmas -/

theorem retrieveLoop_top_k (r : Retriever) (n u : String) (k : Nat) :
    ∀ (qs : List String) (s : RetrievalComponent),
      (retrieveLoop r n u k s qs).1.top_k = s.top_k := by
  intro qs
  induction qs with
  | nil => intro s; rfl
  | cons q qs ih =>
      intro s
      simp only [retrieveLoop]
      cases r q k (retrievalFilter n u) with
      | error e => rfl
      | ok docs => exact ih _

theorem retrieveLoop_congr (r1 r2 : Retriever) (n u : String) (k : Nat)
    (h : ∀ q j, r1 q j (retrievalFilter n u) = r2 q j (retrievalFilter n u)) :
    ∀ (qs : List String) (s : RetrievalComponent),
      retrieveLoop r1 n u k s qs = retrieveLoop r2 n u k s qs := by
  intro qs
  induction qs with
  | nil => intro s; rfl
  | cons q qs ih =>
      intro s
      simp only [retrieveLoop, h q k]
      cases r2 q k (retrievalFilter n u) with
      | error e => rfl
      | ok docs => exact ih _

theorem retrieveLoop_ok (r : Retriever) (n u : String) (k : Nat) :
    ∀ (qs : List String) (s : RetrievalComponent),
      RetrievesOk r n u k qs →
      retrieveLoop r n u k s qs =
        ({ s with
           documents := s.documents ++ retrievedDocs r n u k qs,
           question_context_pairs :=
             s.question_context_pairs ++ retrievedPairs r n u k qs },
         none) := by
  intro qs
  induction qs with
  | nil => intro s _; simp [retrieveLoop, retrievedDocs, retrievedPairs]
  | cons q qs ih =>
      intro s h
      have hq : (r q k (retrievalFilter n u)).isOk :=
        h q (List.mem_cons_self q qs)
      cases hr : r q k (retrievalFilter n u) with
      | error e => rw [hr] at hq; simp [Except.isOk, Except.toBool] at hq
      | ok docs =>
          simp only [retrieveLoop, hr]
          rw [ih _ (fun q hqmem => h q (List.mem_cons_of_mem _ hqmem))]
          simp [retrievedDocs, retrievedPairs, hr]

theorem retrieveLoop_append (r : Retriever) (n u : String) (k : Nat) :
    ∀ (qs1 : List String), RetrievesOk r n u k qs1 →
      ∀ (rest : List String) (s : RetrievalComponent),
      retrieveLoop r n u k s (qs1 ++ rest) =
        retrieveLoop r n u k
          { s with
            documents := s.documents ++ retrievedDocs r n u k qs1,
            question_context_pairs :=
              s.question_context_pairs ++ retrievedPairs r n u k qs1 }
          rest := by
  intro qs1
  induction qs1 with
  | nil =>
      intro _ rest s
      cases s
      simp [retrievedDocs, retrievedPairs]
  | cons q qs ih =>
      intro h rest s
      have hq : (r q k (retrievalFilter n u)).isOk :=
        h q (List.mem_cons_self q qs)
      cases hr : r q k (retrievalFilter n u) with
      | error e => rw [hr] at hq; simp [Except.isOk, Except.toBool] at hq
      | ok docs =>
          simp only [List.cons_append, retrieveLoop, hr, List.append_eq]
          rw [ih (fun q hqmem => h q (List.mem_cons_of_mem _ hqmem)) rest]
          simp [retrievedDocs, retrievedPairs, hr]

/-- Success form of `RetrievalComponent.run` with no `top_k` override. -/
theorem retrievalRun_ok (r : Retriever) (s : RetrievalComponent)
    (qs : StrOrList) (n u : String)
    (h : RetrievesOk r n u s.top_k qs.toList) :
    RetrievalComponent.run r s qs n u none =
      ⟨{ s with
         documents := s.documents ++ retrievedDocs r n u s.top_k qs.toList,
         question_context_pairs := s.question_context_pairs ++
           retrievedPairs r n u s.top_k qs.toList },
       [],
       .ok ⟨s.question_context_pairs ++ retrievedPairs r n u s.top_k qs.toList,
            s.documents ++ retrievedDocs r n u s.top_k qs.toList⟩⟩ := by
  simp only [RetrievalComponent.run]
  rw [retrieveLoop_ok r n u s.top_k qs.toList s h]

theorem rerankLoop_top_k (rk : Ranker) (k : Nat) :
    ∀ (ps : List QCPair) (s : ReRankerComponent),
      (rerankLoop rk k s ps).1.top_k = s.top_k := by
  intro ps
  induction ps with
  | nil => intro s; rfl
  | cons p ps ih =>
      intro s
      simp only [rerankLoop]
      cases rk p.question p.documents k with
      | error e => rfl
      | ok docs => exact ih _

theorem rerankLoop_ok (rk : Ranker) (k : Nat) :
    ∀ (ps : List QCPair) (s : ReRankerComponent),
      RanksOk rk k ps →
      rerankLoop rk k s ps =
        ({ s with documents := s.documents ++ rerankedDocs rk k ps },
         none) := by
  intro ps
  induction ps with
  | nil => intro s _; simp [rerankLoop, rerankedDocs]
  | cons p ps ih =>
      intro s h
      have hp : (rk p.question p.documents k).isOk :=
        h p (List.mem_cons_self p ps)
      cases hr : rk p.question p.documents k with
      | error e => rw [hr] at hp; simp [Except.isOk, Except.toBool] at hp
      | ok docs =>
          simp only [rerankLoop, hr]
          rw [ih _ (fun p hpmem => h p (List.mem_cons_of_mem _ hpmem))]
          simp [rerankedDocs, hr]

theorem rerankLoop_append (rk : Ranker) (k : Nat) :
    ∀ (ps1 : List QCPair), RanksOk rk k ps1 →
      ∀ (rest : List QCPair) (s : ReRankerComponent),
      rerankLoop rk k s (ps1 ++ rest) =
        rerankLoop rk k
          { s with documents := s.documents ++ rerankedDocs rk k ps1 }
          rest := by
  intro ps1
  induction ps1 with
  | nil =>
      intro _ rest s
      cases s
      simp [rerankedDocs]
  | cons p ps ih =>
      intro h rest s
      have hp : (rk p.question p.documents k).isOk :=
        h p (List.mem_cons_self p ps)
      cases hr : rk p.question p.documents k with
      | error e => rw [hr] at hp; simp [Except.isOk, Except.toBool] at hp
      | ok docs =>
          simp only [List.cons_append, rerankLoop, hr, List.append_eq]
          rw [ih (fun p hpmem => h p (List.mem_cons_of_mem _ hpmem)) rest]
          simp [rerankedDocs, hr]

/-- Success form of `ReRankerComponent.run` with no `top_k` override. -/
theorem rerankRun_ok (rk : Ranker) (s : ReRankerComponent)
    (ps : List QCPair) (h : RanksOk rk s.top_k ps) :
    ReRankerComponent.run rk s ps none =
      ⟨{ s with documents := s.documents ++ rerankedDocs rk s.top_k ps },
       [],
       .ok ⟨s.documents ++ rerankedDocs rk s.top_k ps⟩⟩ := by
  simp only [ReRankerComponent.run]
  rw [rerankLoop_ok rk s.top_k ps s h]

theorem mem_insertDesc (score : Document → Int) (d x : Document) :
    ∀ l : List Document, x ∈ insertDesc score d l ↔ x = d ∨ x ∈ l := by
  intro l
  induction l with
  | nil => simp [insertDesc]
  | cons y ys ih =>
      simp only [insertDesc]
      by_cases hc : score y < score d
      · simp [hc]
      · simp only [if_neg hc, List.mem_cons, ih]
        tauto

theorem mem_sortDesc (score : Document → Int) (x : Document) :
    ∀ l : List Document, x ∈ sortDesc score l ↔ x ∈ l := by
  intro l
  induction l with
  | nil => simp [sortDesc]
  | cons y ys ih =>
      simp only [sortDesc, mem_insertDesc, ih, List.mem_cons]

theorem modelRank_length_le (score : String → Document → Int) (q : String)
    (ds : List Document) (k : Nat) : (modelRank score q ds k).length ≤ k := by
  simp only [modelRank]
  exact (List.length_take _ _).trans_le (min_le_left _ _)

theorem modelRank_subset (score : String → Document → Int) (q : String)
    (ds : List Document) (k : Nat) :
    ∀ d ∈ modelRank score q ds k, d ∈ ds := by
  intro d hd
  have : d ∈ sortDesc (score q) ds := List.mem_of_mem_take hd
  exact (mem_sortDesc _ _ _).1 this

theorem rerankedDocs_modelRank (score : String → Document → Int) (k : Nat) :
    ∀ ps : List QCPair,
      (rerankedDocs (fun q ds j => .ok (modelRank score q ds j)) k ps).length
        ≤ k * ps.length
      ∧ ∀ d ∈ rerankedDocs (fun q ds j => .ok (modelRank score q ds j)) k ps,
          ∃ p ∈ ps, d ∈ p.documents := by
  intro ps
  induction ps with
  | nil => simp [rerankedDocs]
  | cons p ps ih =>
      simp only [rerankedDocs]
      constructor
      · simp only [List.length_append, List.length_cons, Nat.mul_succ]
        have h1 := modelRank_length_le score p.question p.documents k
        have h2 := ih.1
        omega
      · intro d hd
        rcases List.mem_append.1 hd with h | h
        · exact ⟨p, List.mem_cons_self _ _,
            modelRank_subset score _ _ _ d h⟩
        · obtain ⟨p1, hp1, hdp⟩ := ih.2 d h
          exact ⟨p1, List.mem_cons_of_mem _ hp1, hdp⟩

/-- Success form of `Retrieval.run`: when the category resolves, every
stage call succeeds, and the generator returns a non-empty reply list,
the pipeline returns the triple built from the stage outputs in order. -/
theorem Retrieval.run_of_lookup
    (db_map : List (String × Retriever)) (category : String)
    (retrieve : Retriever) (rank : Ranker)
    (generate : String → Except PyErr (List String))
    (query name userid : String)
    (hcat : db_map.lookup category = some retrieve)
    (hret : RetrievesOk retrieve name userid 10 [query])
    (hrank : RanksOk rank 3 (retrievedPairs retrieve name userid 10 [query]))
    (r : String) (rs : List String)
    (hgen : generate (buildPrompt query (rerankedDocs rank 3
      (retrievedPairs retrieve name userid 10 [query]))) = .ok (r :: rs)) :
    Retrieval.run db_map rank generate query category name userid =
      ([], .ok (r,
        ⟨rerankedDocs rank 3 (retrievedPairs retrieve name userid 10 [query])⟩,
        retrievedPairs retrieve name userid 10 [query])) := by
  simp only [Retrieval.run, hcat]
  rw [retrievalRun_ok retrieve RetrievalComponent.init (.str query)
    name userid hret]
  dsimp only [RetrievalComponent.init, StrOrList.toList]
  simp only [List.nil_append]
  rw [rerankRun_ok rank ReRankerComponent.init
    (retrievedPairs retrieve name userid 10 [query]) hrank]
  dsimp only [ReRankerComponent.init]
  simp only [List.nil_append]
  rw [hgen]

/-! ## Claims -/

/-- C1: every retrieval invocation sends the document store the
disjunctive filter `source == name OR userid == userid`: the filter
evaluates to the disjunction of the two metadata equalities (so a stored
document matching either side alone satisfies it), and
`RetrievalComponent.run` depends on the retriever only through calls made
with exactly `retrievalFilter name userid`. -/
theorem retrieval_filter_is_or :
    (∀ (n u : String) (d : Document),
      evalFilter (retrievalFilter n u) d = (d.source == n || d.userid == u)
      ∧ (d.source = n → evalFilter (retrievalFilter n u) d = true)
      ∧ (d.userid = u → evalFilter (retrievalFilter n u) d = true))
    ∧ (∀ (r1 r2 : Retriever) (s : RetrievalComponent) (qs : StrOrList)
        (n u : String) (t : Option Nat),
        (∀ q j, r1 q j (retrievalFilter n u) = r2 q j (retrievalFilter n u)) →
        RetrievalComponent.run r1 s qs n u t =
          RetrievalComponent.run r2 s qs n u t) := by
  constructor
  · intro n u d
    have hb : evalFilter (retrievalFilter n u) d =
        (d.source == n || d.userid == u) := by
      simp [evalFilter, retrievalFilter, evalCondition, Document.metaField]
    refine ⟨hb, ?_, ?_⟩
    · intro h; rw [hb, h]; simp
    · intro h; rw [hb, h]; simp
  · intro r1 r2 s qs n u t h
    cases t with
    | none =>
        simp only [RetrievalComponent.run]
        rw [retrieveLoop_congr r1 r2 n u _ h]
    | some k =>
        simp only [RetrievalComponent.run]
        rw [retrieveLoop_congr r1 r2 n u _ h]

/-- Witness for C1: a document whose source matches but whose userid
differs satisfies the filter, and vice versa. -/
theorem retrieval_filter_is_or_witness :
    evalFilter (retrievalFilter "doc1.pdf" "u1")
      ⟨"c", "doc1.pdf", "u2", none, "No", "no"⟩ = true
    ∧ evalFilter (retrievalFilter "doc1.pdf" "u1")
      ⟨"c", "other.pdf", "u1", none, "No", "no"⟩ = true :=
  ⟨(retrieval_filter_is_or.1 "doc1.pdf" "u1" _).2.1 rfl,
   (retrieval_filter_is_or.1 "doc1.pdf" "u1" _).2.2 rfl⟩

/-- C2: neither component resets its instance lists between calls: after
a successful `run`, a second successful `run` on the resulting instance
returns the first output followed by the documents (and, for retrieval,
pairs) belonging to the second call's inputs. -/
theorem component_state_accumulates :
    (∀ (r : Retriever) (s : RetrievalComponent) (qs1 qs2 : StrOrList)
       (n u : String),
      RetrievesOk r n u s.top_k qs1.toList →
      RetrievesOk r n u s.top_k qs2.toList →
      ∃ out1 out2 : RetrievalOutput,
        (RetrievalComponent.run r s qs1 n u none).result = .ok out1 ∧
        (RetrievalComponent.run r
          (RetrievalComponent.run r s qs1 n u none).state
          qs2 n u none).result = .ok out2 ∧
        out2.documents =
          out1.documents ++ retrievedDocs r n u s.top_k qs2.toList ∧
        out2.question_context_pairs =
          out1.question_context_pairs ++
            retrievedPairs r n u s.top_k qs2.toList)
    ∧ (∀ (rk : Ranker) (t : ReRankerComponent) (ps1 ps2 : List QCPair),
      RanksOk rk t.top_k ps1 →
      RanksOk rk t.top_k ps2 →
      ∃ out1 out2 : RerankOutput,
        (ReRankerComponent.run rk t ps1 none).result = .ok out1 ∧
        (ReRankerComponent.run rk
          (ReRankerComponent.run rk t ps1 none).state ps2 none).result =
          .ok out2 ∧
        out2.documents = out1.documents ++ rerankedDocs rk t.top_k ps2) := by
  constructor
  · intro r s qs1 qs2 n u h1 h2
    rw [retrievalRun_ok r s qs1 n u h1]
    dsimp only
    rw [retrievalRun_ok r
      { question_context_pairs :=
          s.question_context_pairs ++ retrievedPairs r n u s.top_k qs1.toList,
        documents := s.documents ++ retrievedDocs r n u s.top_k qs1.toList,
        top_k := s.top_k } qs2 n u h2]
    exact ⟨_, _, rfl, rfl, rfl, rfl⟩
  · intro rk t ps1 ps2 h1 h2
    rw [rerankRun_ok rk t ps1 h1]
    dsimp only
    rw [rerankRun_ok rk
      { documents := t.documents ++ rerankedDocs rk t.top_k ps1,
        top_k := t.top_k } ps2 h2]
    exact ⟨_, _, rfl, rfl, rfl⟩

/-- Witness for C2: two successive runs of each component on a concrete
instance, with a retriever and ranker that always succeed. -/
theorem component_state_accumulates_witness :
    (∃ out1 out2 : RetrievalOutput,
      (RetrievalComponent.run (fun _ _ _ => .ok [])
        RetrievalComponent.init (.str "a") "n" "u" none).result = .ok out1 ∧
      (RetrievalComponent.run (fun _ _ _ => .ok [])
        (RetrievalComponent.run (fun _ _ _ => .ok [])
          RetrievalComponent.init (.str "a") "n" "u" none).state
        (.str "b") "n" "u" none).result = .ok out2 ∧
      out2.documents = out1.documents ++
        retrievedDocs (fun _ _ _ => .ok []) "n" "u"
          RetrievalComponent.init.top_k (StrOrList.str "b").toList ∧
      out2.question_context_pairs = out1.question_context_pairs ++
        retrievedPairs (fun _ _ _ => .ok []) "n" "u"
          RetrievalComponent.init.top_k (StrOrList.str "b").toList)
    ∧ (∃ out1 out2 : RerankOutput,
      (ReRankerComponent.run (fun _ ds _ => .ok ds)
        ReRankerComponent.init [⟨"a", []⟩] none).result = .ok out1 ∧
      (ReRankerComponent.run (fun _ ds _ => .ok ds)
        (ReRankerComponent.run (fun _ ds _ => .ok ds)
          ReRankerComponent.init [⟨"a", []⟩] none).state
        [⟨"b", []⟩] none).result = .ok out2 ∧
      out2.documents = out1.documents ++
        rerankedDocs (fun _ ds _ => .ok ds)
          ReRankerComponent.init.top_k [⟨"b", []⟩]) :=
  ⟨component_state_accumulates.1 (fun _ _ _ => .ok [])
      RetrievalComponent.init (.str "a") (.str "b") "n" "u"
      (fun _ _ => rfl) (fun _ _ => rfl),
   component_state_accumulates.2 (fun _ ds _ => .ok ds)
      ReRankerComponent.init [⟨"a", []⟩] [⟨"b", []⟩]
      (fun _ _ => rfl) (fun _ _ => rfl)⟩

/-- C3: on a fresh `ReRankerComponent` with the relevance model satisfying
its contract, a non-empty pair list yields at most `top_k` documents per
pair — so at most `top_k * (number of pairs)` in total — and every
returned document belongs to the input document set of one of the
pairs. -/
theorem rerank_topk_bound_subset (score : String → Document → Int)
    (ps : List QCPair) (k : Nat) (_hps : ps ≠ []) :
    ∃ out : RerankOutput,
      (ReRankerComponent.run (fun q ds j => .ok (modelRank score q ds j))
        (ReRankerComponent.init k) ps none).result = .ok out ∧
      out.documents.length ≤ k * ps.length ∧
      ∀ d ∈ out.documents, ∃ p ∈ ps, d ∈ p.documents := by
  rw [rerankRun_ok (fun q ds j => .ok (modelRank score q ds j))
    (ReRankerComponent.init k) ps (fun _ _ => rfl)]
  refine ⟨_, rfl, ?_, ?_⟩
  · have h := (rerankedDocs_modelRank score k ps).1
    simpa [ReRankerComponent.init] using h
  · have h := (rerankedDocs_modelRank score k ps).2
    simpa [ReRankerComponent.init] using h

/-- Witness for C3: one pair with two candidate documents and
`top_k = 1`. -/
theorem rerank_topk_bound_subset_witness :
    ∃ out : RerankOutput,
      (ReRankerComponent.run
        (fun q ds j => .ok (modelRank (fun _ _ => 0) q ds j))
        (ReRankerComponent.init 1)
        [⟨"q", [⟨"c1", "s1", "u1", none, "No", "no"⟩,
               ⟨"c2", "s2", "u2", none, "No", "no"⟩]⟩] none).result =
        .ok out ∧
      out.documents.length ≤
        1 * [(⟨"q", [⟨"c1", "s1", "u1", none, "No", "no"⟩,
               ⟨"c2", "s2", "u2", none, "No", "no"⟩]⟩ : QCPair)].length ∧
      ∀ d ∈ out.documents,
        ∃ p ∈ [(⟨"q", [⟨"c1", "s1", "u1", none, "No", "no"⟩,
               ⟨"c2", "s2", "u2", none, "No", "no"⟩]⟩ : QCPair)],
          d ∈ p.documents :=
  rerank_topk_bound_subset (fun _ _ => 0) _ 1 (by decide)

/-- C4: for a known category, `Retrieval.run` resolves the category's
document store, then runs retrieval (fresh component, default `top_k` 10),
then reranking (fresh component, default `top_k` 3), then prompt-building
and generation, in that fixed order, and returns the triple
`(answer_text, reranked documents, question_context_pairs)`. -/
theorem pipeline_fixed_order_triple
    (db_map : List (String × Retriever)) (category : String)
    (retrieve : Retriever) (score : String → Document → Int)
    (gen : String → String) (query name userid : String)
    (hcat : db_map.lookup category = some retrieve)
    (hok : ∀ q k f, (retrieve q k f).isOk) :
    Retrieval.run db_map (fun q ds j => .ok (modelRank score q ds j))
      (fun p => .ok [gen p]) query category name userid =
      ([], .ok
        (gen (buildPrompt query
          (rerankedDocs (fun q ds j => .ok (modelRank score q ds j)) 3
            (retrievedPairs retrieve name userid 10 [query]))),
         ⟨rerankedDocs (fun q ds j => .ok (modelRank score q ds j)) 3
            (retrievedPairs retrieve name userid 10 [query])⟩,
         retrievedPairs retrieve name userid 10 [query])) :=
  Retrieval.run_of_lookup db_map category retrieve
    (fun q ds j => .ok (modelRank score q ds j)) (fun p => .ok [gen p])
    query name userid hcat (fun q _ => hok q _ _) (fun _ _ => rfl) _ [] rfl

/-- Witness for C4: a concrete database map and collaborators; the
pipeline returns the generated answer, the reranked set, and the pairs. -/
theorem pipeline_fixed_order_triple_witness :
    Retrieval.run
      (mkDbMap (fun _ _ _ => .ok []) (fun _ _ _ => .ok [])
        (fun _ _ _ => .ok []) (fun _ _ _ => .ok [])
        (fun _ _ _ => .ok []) (fun _ _ _ => .ok []))
      (fun q ds j => .ok (modelRank (fun _ _ => 0) q ds j))
      (fun _ => .ok ["ans"]) "hi" "Education" "n" "u" =
      ([], .ok ("ans", ⟨[]⟩, [⟨"hi", []⟩])) :=
  pipeline_fixed_order_triple
    (mkDbMap (fun _ _ _ => .ok []) (fun _ _ _ => .ok [])
      (fun _ _ _ => .ok []) (fun _ _ _ => .ok [])
      (fun _ _ _ => .ok []) (fun _ _ _ => .ok []))
    "Education" (fun _ _ _ => .ok []) (fun _ _ => 0) (fun _ => "ans")
    "hi" "n" "u" rfl (fun _ _ _ => rfl)

/-- C5: when retrieval finds zero documents for the query, the pipeline
still completes without error: reranking and answer composition run on
the empty context and the generated answer is returned. -/
theorem empty_retrieval_still_answers
    (db_map : List (String × Retriever)) (category : String)
    (retrieve : Retriever) (score : String → Document → Int)
    (gen : String → String) (query name userid : String)
    (hcat : db_map.lookup category = some retrieve)
    (hempty : ∀ q k f, retrieve q k f = .ok []) :
    Retrieval.run db_map (fun q ds j => .ok (modelRank score q ds j))
      (fun p => .ok [gen p]) query category name userid =
      ([], .ok (gen (buildPrompt query []), ⟨[]⟩, [⟨query, []⟩])) := by
  have hP : retrievedPairs retrieve name userid 10 [query] =
      [⟨query, []⟩] := by
    simp [retrievedPairs, hempty]
  have hD : rerankedDocs (fun q ds j => .ok (modelRank score q ds j)) 3
      [(⟨query, []⟩ : QCPair)] = [] := by
    simp [rerankedDocs, modelRank, sortDesc]
  have h := Retrieval.run_of_lookup db_map category retrieve
    (fun q ds j => .ok (modelRank score q ds j)) (fun p => .ok [gen p])
    query name userid hcat
    (fun q _ => by rw [hempty]; rfl) (fun _ _ => rfl)
    (gen (buildPrompt query (rerankedDocs
      (fun q ds j => .ok (modelRank score q ds j)) 3
      (retrievedPairs retrieve name userid 10 [query])))) [] rfl
  rw [h, hP, hD]

/-- Witness for C5: an always-empty document store; the pipeline returns
a non-error answer over the empty context. -/
theorem empty_retrieval_still_answers_witness :
    Retrieval.run
      (mkDbMap (fun _ _ _ => .ok []) (fun _ _ _ => .ok [])
        (fun _ _ _ => .ok []) (fun _ _ _ => .ok [])
        (fun _ _ _ => .ok []) (fun _ _ _ => .ok []))
      (fun q ds j => .ok (modelRank (fun _ _ => 0) q ds j))
      (fun _ => .ok ["no documents matched"]) "hi" "Sports" "n" "u" =
      ([], .ok ("no documents matched", ⟨[]⟩, [⟨"hi", []⟩])) :=
  empty_retrieval_still_answers
    (mkDbMap (fun _ _ _ => .ok []) (fun _ _ _ => .ok [])
      (fun _ _ _ => .ok []) (fun _ _ _ => .ok [])
      (fun _ _ _ => .ok []) (fun _ _ _ => .ok []))
    "Sports" (fun _ _ _ => .ok []) (fun _ _ => 0)
    (fun _ => "no documents matched") "hi" "n" "u" rfl (fun _ _ _ => rfl)

/-- C6: each stage logs the failing call's exception (type name and
message, via `errorLogLine`) and re-raises the same exception unchanged:
a retriever error aborts `RetrievalComponent.run` with that error; a
ranker error aborts `ReRankerComponent.run` with that error; and the
pipeline logs the propagated error once more and re-raises it, with no
recovered or partial result. -/
theorem stage_error_log_and_reraise :
    (∀ (r : Retriever) (s : RetrievalComponent) (qs1 : List String)
       (q : String) (qs2 : List String) (n u : String) (e : PyErr),
      RetrievesOk r n u s.top_k qs1 →
      r q s.top_k (retrievalFilter n u) = .error e →
      RetrievalComponent.run r s (.list (qs1 ++ q :: qs2)) n u none =
        ⟨{ s with
           documents := s.documents ++ retrievedDocs r n u s.top_k qs1,
           question_context_pairs := s.question_context_pairs ++
             retrievedPairs r n u s.top_k qs1 },
         [errorLogLine e], .error e⟩)
    ∧ (∀ (rk : Ranker) (t : ReRankerComponent) (ps1 : List QCPair)
        (p : QCPair) (ps2 : List QCPair) (e : PyErr),
      RanksOk rk t.top_k ps1 →
      rk p.question p.documents t.top_k = .error e →
      ReRankerComponent.run rk t (ps1 ++ p :: ps2) none =
        ⟨{ t with documents := t.documents ++ rerankedDocs rk t.top_k ps1 },
         [errorLogLine e], .error e⟩)
    ∧ (∀ (db_map : List (String × Retriever)) (category : String)
        (retrieve : Retriever) (rank : Ranker)
        (generate : String → Except PyErr (List String))
        (query n u : String) (e : PyErr),
      db_map.lookup category = some retrieve →
      retrieve query 10 (retrievalFilter n u) = .error e →
      Retrieval.run db_map rank generate query category n u =
        ([errorLogLine e, errorLogLine e], .error e))
    ∧ (∀ (db_map : List (String × Retriever)) (category : String)
        (retrieve : Retriever) (rank : Ranker)
        (generate : String → Except PyErr (List String))
        (query n u : String) (e : PyErr),
      db_map.lookup category = some retrieve →
      RetrievesOk retrieve n u 10 [query] →
      RanksOk rank 3 (retrievedPairs retrieve n u 10 [query]) →
      generate (buildPrompt query (rerankedDocs rank 3
        (retrievedPairs retrieve n u 10 [query]))) = .error e →
      Retrieval.run db_map rank generate query category n u =
        ([errorLogLine e], .error e)) := by
  refine ⟨?_, ?_, ?_, ?_⟩
  · intro r s qs1 q qs2 n u e hok h
    simp only [RetrievalComponent.run, StrOrList.toList]
    rw [retrieveLoop_append r n u s.top_k qs1 hok]
    simp only [retrieveLoop, h]
  · intro rk t ps1 p ps2 e hok h
    simp only [ReRankerComponent.run]
    rw [rerankLoop_append rk t.top_k ps1 hok]
    simp only [rerankLoop, h]
  · intro db_map category retrieve rank generate query n u e hcat h
    simp only [Retrieval.run, hcat]
    have hrun : RetrievalComponent.run retrieve RetrievalComponent.init
        (.str query) n u none =
        ⟨RetrievalComponent.init, [errorLogLine e], .error e⟩ := by
      simp only [RetrievalComponent.run, StrOrList.toList, retrieveLoop]
      rw [show RetrievalComponent.init.top_k = 10 from rfl, h]
    rw [hrun]
    dsimp only
    rfl
  · intro db_map category retrieve rank generate query n u e hcat hret
      hrank hgen
    simp only [Retrieval.run, hcat]
    rw [retrievalRun_ok retrieve RetrievalComponent.init
      (.str query) n u hret]
    dsimp only [RetrievalComponent.init, StrOrList.toList]
    simp only [List.nil_append]
    rw [rerankRun_ok rank ReRankerComponent.init
      (retrievedPairs retrieve n u 10 [query]) hrank]
    dsimp only [ReRankerComponent.init]
    simp only [List.nil_append]
    rw [hgen]

/-- Witness for C6: a retriever and a ranker that always raise; every
stage logs the exception and re-raises it unchanged. -/
theorem stage_error_log_and_reraise_witness :
    RetrievalComponent.run (fun _ _ _ => .error ⟨"ValueError", "boom"⟩)
      RetrievalComponent.init (.list ["a"]) "n" "u" none =
      ⟨RetrievalComponent.init, [errorLogLine ⟨"ValueError", "boom"⟩],
       .error ⟨"ValueError", "boom"⟩⟩
    ∧ ReRankerComponent.run (fun _ _ _ => .error ⟨"RuntimeError", "bad"⟩)
      ReRankerComponent.init [⟨"a", []⟩] none =
      ⟨ReRankerComponent.init, [errorLogLine ⟨"RuntimeError", "bad"⟩],
       .error ⟨"RuntimeError", "bad"⟩⟩
    ∧ Retrieval.run
      (mkDbMap (fun _ _ _ => .error ⟨"ValueError", "boom"⟩)
        (fun _ _ _ => .error ⟨"ValueError", "boom"⟩)
        (fun _ _ _ => .error ⟨"ValueError", "boom"⟩)
        (fun _ _ _ => .error ⟨"ValueError", "boom"⟩)
        (fun _ _ _ => .error ⟨"ValueError", "boom"⟩)
        (fun _ _ _ => .error ⟨"ValueError", "boom"⟩))
      (fun _ _ _ => .error ⟨"RuntimeError", "bad"⟩)
      (fun _ => .ok ["ans"]) "hi" "Others" "n" "u" =
      ([errorLogLine ⟨"ValueError", "boom"⟩,
        errorLogLine ⟨"ValueError", "boom"⟩],
       .error ⟨"ValueError", "boom"⟩)
    ∧ Retrieval.run
      (mkDbMap (fun _ _ _ => .ok []) (fun _ _ _ => .ok [])
        (fun _ _ _ => .ok []) (fun _ _ _ => .ok [])
        (fun _ _ _ => .ok []) (fun _ _ _ => .ok []))
      (fun _ ds _ => .ok ds)
      (fun _ => .error ⟨"APIError", "down"⟩) "hi" "Images" "n" "u" =
      ([errorLogLine ⟨"APIError", "down"⟩], .error ⟨"APIError", "down"⟩) :=
  ⟨stage_error_log_and_reraise.1 (fun _ _ _ => .error ⟨"ValueError", "boom"⟩)
    RetrievalComponent.init [] "a" [] "n" "u" ⟨"ValueError", "boom"⟩
    (fun _ hx => absurd hx (List.not_mem_nil _)) rfl,
   stage_error_log_and_reraise.2.1
    (fun _ _ _ => .error ⟨"RuntimeError", "bad"⟩)
    ReRankerComponent.init [] ⟨"a", []⟩ [] ⟨"RuntimeError", "bad"⟩
    (fun _ hx => absurd hx (List.not_mem_nil _)) rfl,
   stage_error_log_and_reraise.2.2.1 _ "Others"
    (fun _ _ _ => .error ⟨"ValueError", "boom"⟩)
    (fun _ _ _ => .error ⟨"RuntimeError", "bad"⟩)
    (fun _ => .ok ["ans"]) "hi" "n" "u" ⟨"ValueError", "boom"⟩ rfl rfl,
   stage_error_log_and_reraise.2.2.2 _ "Images"
    (fun _ _ _ => .ok []) (fun _ ds _ => .ok ds)
    (fun _ => .error ⟨"APIError", "down"⟩) "hi" "n" "u"
    ⟨"APIError", "down"⟩ rfl (fun _ _ => rfl) (fun _ _ => rfl) rfl⟩

/-- C7: `KnowledgeRouter.run` returns the pair
`(decision, core_meaning_or_none)`: the first component is the first
model's decision; when that decision is an `InternalDataRequests` the
second component is the core meaning produced by the second model call on
the decision's `query` field (and exactly that one call is made); when it
is a `ConversationalResponse` the second component is `None` and the
second model is never invoked. -/
theorem knowledge_router_core_meaning
    (sllm : String → String → RouterResponse)
    (cllm : String → CoreMeaningQuery) (q h : String) :
    ((KnowledgeRouter.run sllm cllm q h).1.1 = sllm q h)
    ∧ (∀ fn qq ft act, sllm q h = .internalDataRequests fn qq ft act →
        (KnowledgeRouter.run sllm cllm q h).1.2 =
          some (cllm qq).core_meaning ∧
        (KnowledgeRouter.run sllm cllm q h).2 = [qq])
    ∧ (∀ t, sllm q h = .conversationalResponse t →
        (KnowledgeRouter.run sllm cllm q h).1.2 = none ∧
        (KnowledgeRouter.run sllm cllm q h).2 = []) := by
  refine ⟨?_, ?_, ?_⟩
  · simp only [KnowledgeRouter.run]
    cases sllm q h with
    | internalDataRequests fn qq ft act => rfl
    | conversationalResponse t => rfl
  · intro fn qq ft act hd
    simp [KnowledgeRouter.run, hd]
  · intro t hd
    simp [KnowledgeRouter.run, hd]

/-- Witness for C7: one internal-data decision and one conversational
decision, at concrete inputs. -/
theorem knowledge_router_core_meaning_witness :
    ((KnowledgeRouter.run
        (fun _ _ => .internalDataRequests (some "f.pdf") "about f" (some "pdf")
          (some "retrieve"))
        (fun s => ⟨"core of " ++ s⟩) "q1" "h1").1.2 =
      some ((fun s => (⟨"core of " ++ s⟩ : CoreMeaningQuery)) "about f").core_meaning ∧
     (KnowledgeRouter.run
        (fun _ _ => .internalDataRequests (some "f.pdf") "about f" (some "pdf")
          (some "retrieve"))
        (fun s => ⟨"core of " ++ s⟩) "q1" "h1").2 = ["about f"])
    ∧ ((KnowledgeRouter.run (fun _ _ => .conversationalResponse "hello")
        (fun s => ⟨"core of " ++ s⟩) "q2" "h2").1.2 = none ∧
       (KnowledgeRouter.run (fun _ _ => .conversationalResponse "hello")
        (fun s => ⟨"core of " ++ s⟩) "q2" "h2").2 = []) :=
  ⟨(knowledge_router_core_meaning
      (fun _ _ => .internalDataRequests (some "f.pdf") "about f" (some "pdf")
        (some "retrieve"))
      (fun s => ⟨"core of " ++ s⟩) "q1" "h1").2.1
      (some "f.pdf") "about f" (some "pdf") (some "retrieve") rfl,
   (knowledge_router_core_meaning (fun _ _ => .conversationalResponse "hello")
      (fun s => ⟨"core of " ++ s⟩) "q2" "h2").2.2 "hello" rfl⟩

/-- C8 (code bug): on a concrete one-page PDF the document list built by
`extract_images_text` contains the page Document but no rollup-summary
Document — the summary Document of line 127 is constructed and dropped —
and `PdfUploading.run` cannot succeed at all, because its call site
passes four positional arguments (`extractImagesTextCallArgs`) to a
three-parameter method (`extractImagesTextParams`), raising `TypeError`. -/
theorem pdf_rollup_summary_missing :
    ((extractImagesText (fun s => s) (fun t => "S:" ++ t) "doc1.pdf" "u1"
        [⟨"hello", []⟩]).1.countP (fun d => d.summary == "yes") = 0)
    ∧ ((extractImagesText (fun s => s) (fun t => "S:" ++ t) "doc1.pdf" "u1"
        [⟨"hello", []⟩]).1.length = 1)
    ∧ (rollupSummaryDoc "doc1.pdf" "u1"
        (extractImagesText (fun s => s) (fun t => "S:" ++ t) "doc1.pdf" "u1"
          [⟨"hello", []⟩]).2 ∉
       (extractImagesText (fun s => s) (fun t => "S:" ++ t) "doc1.pdf" "u1"
          [⟨"hello", []⟩]).1)
    ∧ (extractImagesTextCallArgs.length ≠ extractImagesTextParams.length)
    ∧ (PdfUploading.run (fun s => s) (fun t => "S:" ++ t) (fun l => l)
        (fun _ => "Others") "doc1.pdf" "u1" [⟨"hello", []⟩] =
        .error ⟨"TypeError",
          "extract_images_text() takes 4 positional arguments but 5 were given"⟩) := by
  refine ⟨?_, ?_, ?_, ?_, ?_⟩
  · decide
  · decide
  · decide
  · decide
  · rfl

theorem mem_freshIds (a n i : Nat) :
    i ∈ freshIds a n ↔ a ≤ i ∧ i < a + n := by
  simp only [freshIds, List.mem_map, List.mem_range]
  constructor
  · rintro ⟨j, hj, rfl⟩; omega
  · rintro ⟨h1, h2⟩; exact ⟨i - a, by omega, by omega⟩

theorem freshIds_nodup (a n : Nat) : (freshIds a n).Nodup :=
  (List.nodup_range n).map (fun i j h => by omega)

theorem freshIds_length (a n : Nat) : (freshIds a n).length = n := by
  simp [freshIds]

theorem zip_mk_map (c : String) :
    ∀ (ids : List Nat) (docs : List Document), ids.length = docs.length →
      ((ids.zip docs).map
          (fun (i, d) => (⟨i, c, d⟩ : GatewayEntry))).map GatewayEntry.doc
        = docs
      ∧ ((ids.zip docs).map
          (fun (i, d) => (⟨i, c, d⟩ : GatewayEntry))).map GatewayEntry.id
        = ids := by
  intro ids
  induction ids with
  | nil =>
      intro docs h
      cases docs with
      | nil => simp
      | cons d ds => simp at h
  | cons i is ih =>
      intro docs h
      cases docs with
      | nil => simp at h
      | cons d ds =>
          have hih := ih ds (by simpa using h)
          simp [hih.1, hih.2]

/-- The effect of `load_vectorstore`: appends a batch carrying the input
documents under the freshly issued identifiers. -/
theorem load_vectorstore_spec (s : GatewayState) (c : String)
    (docs : List Document) :
    ∃ batch : List GatewayEntry,
      load_vectorstore s c docs =
        ({ entries := s.entries ++ batch,
           nextId := s.nextId + docs.length },
         freshIds s.nextId docs.length) ∧
      batch.map GatewayEntry.doc = docs ∧
      batch.map GatewayEntry.id = freshIds s.nextId docs.length := by
  refine ⟨_, rfl, ?_, ?_⟩
  · exact (zip_mk_map c _ docs (freshIds_length _ _)).1
  · exact (zip_mk_map c _ docs (freshIds_length _ _)).2

/-- C9: storing a batch under a known category issues exactly one fresh
identifier per document (same length, pairwise distinct, distinct from
every identifier already stored), and storing the same batch again
appends new entries under new identifiers instead of replacing the old
ones: the old entries stay as a prefix and the appended entries carry the
documents twice, under the two runs' identifier lists. -/
theorem store_fresh_unique_ids_accumulate
    (s : GatewayState) (c : String) (docs : List Document)
    (hf : s.Fresh) (hc : c ∈ vdbCategories) :
    ∃ (s1 : GatewayState) (ids : List Nat),
      VectorDBStroing.run s docs (some c) = .ok (s1, ids, "Success") ∧
      ids.length = docs.length ∧ ids.Nodup ∧
      (∀ i ∈ ids, ∀ e ∈ s.entries, i ≠ e.id) ∧ s1.Fresh ∧
      ∃ (s2 : GatewayState) (ids2 : List Nat),
        VectorDBStroing.run s1 docs (some c) = .ok (s2, ids2, "Success") ∧
        ids2.length = docs.length ∧ ids2.Nodup ∧
        (∀ i ∈ ids2, i ∉ ids) ∧
        s.entries <+: s2.entries ∧
        (s2.entries.drop s.entries.length).map GatewayEntry.doc =
          docs ++ docs ∧
        (s2.entries.drop s.entries.length).map GatewayEntry.id =
          ids ++ ids2 := by
  obtain ⟨b1, hb1, hb1doc, hb1id⟩ := load_vectorstore_spec s c docs
  obtain ⟨b2, hb2, hb2doc, hb2id⟩ := load_vectorstore_spec
    ⟨s.entries ++ b1, s.nextId + docs.length⟩ c docs
  have hrun1 : VectorDBStroing.run s docs (some c) =
      .ok (⟨s.entries ++ b1, s.nextId + docs.length⟩,
        freshIds s.nextId docs.length, "Success") := by
    simp only [VectorDBStroing.run, if_pos hc, hb1]
  have hrun2 : VectorDBStroing.run
      ⟨s.entries ++ b1, s.nextId + docs.length⟩ docs (some c) =
      .ok (⟨(s.entries ++ b1) ++ b2,
        (s.nextId + docs.length) + docs.length⟩,
        freshIds (s.nextId + docs.length) docs.length, "Success") := by
    simp only [VectorDBStroing.run, if_pos hc, hb2]
  have hb1fresh : ∀ e ∈ b1, e.id < s.nextId + docs.length := by
    intro e he
    have : e.id ∈ b1.map GatewayEntry.id := List.mem_map_of_mem _ he
    rw [hb1id] at this
    exact ((mem_freshIds _ _ _).1 this).2
  refine ⟨_, _, hrun1, freshIds_length _ _, freshIds_nodup _ _, ?_, ?_,
    _, _, hrun2, freshIds_length _ _, freshIds_nodup _ _, ?_, ?_, ?_, ?_⟩
  · intro i hi e he
    have h1 := ((mem_freshIds _ _ _).1 hi).1
    have h2 := hf e he
    omega
  · intro e he
    rcases List.mem_append.1 he with h | h
    · have := hf e h; simp only [GatewayState.nextId] at *; omega
    · exact hb1fresh e h
  · intro i hi hmem
    have h1 := ((mem_freshIds _ _ _).1 hi).1
    have h2 := ((mem_freshIds _ _ _).1 hmem).2
    omega
  · rw [List.append_assoc]
    exact List.prefix_append _ _
  · rw [List.append_assoc, List.drop_left, List.map_append, hb1doc, hb2doc]
  · rw [List.append_assoc, List.drop_left, List.map_append, hb1id, hb2id]

/-- Witness for C9: storing one document twice into the Education
collection of an empty store. -/
theorem store_fresh_unique_ids_accumulate_witness :
    ∃ (s1 : GatewayState) (ids : List Nat),
      VectorDBStroing.run ⟨[], 0⟩ [⟨"c", "s", "u", none, "No", "no"⟩]
        (some "Education") = .ok (s1, ids, "Success") ∧
      ids.length = [(⟨"c", "s", "u", none, "No", "no"⟩ : Document)].length ∧
      ids.Nodup ∧
      (∀ i ∈ ids, ∀ e ∈ ([] : List GatewayEntry), i ≠ e.id) ∧ s1.Fresh ∧
      ∃ (s2 : GatewayState) (ids2 : List Nat),
        VectorDBStroing.run s1 [⟨"c", "s", "u", none, "No", "no"⟩]
          (some "Education") = .ok (s2, ids2, "Success") ∧
        ids2.length =
          [(⟨"c", "s", "u", none, "No", "no"⟩ : Document)].length ∧
        ids2.Nodup ∧
        (∀ i ∈ ids2, i ∉ ids) ∧
        ([] : List GatewayEntry) <+: s2.entries ∧
        (s2.entries.drop ([] : List GatewayEntry).length).map
            GatewayEntry.doc =
          [(⟨"c", "s", "u", none, "No", "no"⟩ : Document)] ++
            [⟨"c", "s", "u", none, "No", "no"⟩] ∧
        (s2.entries.drop ([] : List GatewayEntry).length).map
            GatewayEntry.id = ids ++ ids2 :=
  store_fresh_unique_ids_accumulate ⟨[], 0⟩ "Education"
    [⟨"c", "s", "u", none, "No", "no"⟩]
    (by intro e he; cases he) (by decide)

/-- C10: passing a `top_k` override to either component's `run`
permanently overwrites the instance's stored `top_k` (`self.top_k = top_k`
before the loop): after a call with `some k`, the state's `top_k` is `k`,
and a later call that omits the override behaves exactly as a call
explicitly passing `k` — not the constructor defaults, which are 10 for
retrieval and 3 for reranking. -/
theorem topk_override_persists :
    (∀ (r : Retriever) (s : RetrievalComponent) (qs qs2 : StrOrList)
       (n u : String) (k : Nat),
      ((RetrievalComponent.run r s qs n u (some k)).state.top_k = k)
      ∧ (RetrievalComponent.run r
          (RetrievalComponent.run r s qs n u (some k)).state qs2 n u none =
         RetrievalComponent.run r
          (RetrievalComponent.run r s qs n u (some k)).state qs2 n u
          (some k)))
    ∧ RetrievalComponent.init.top_k = 10
    ∧ (∀ (rk : Ranker) (t : ReRankerComponent) (ps ps2 : List QCPair)
        (k : Nat),
      ((ReRankerComponent.run rk t ps (some k)).state.top_k = k)
      ∧ (ReRankerComponent.run rk
          (ReRankerComponent.run rk t ps (some k)).state ps2 none =
         ReRankerComponent.run rk
          (ReRankerComponent.run rk t ps (some k)).state ps2 (some k)))
    ∧ ReRankerComponent.init.top_k = 3 := by
  have hr1 : ∀ (r : Retriever) (s : RetrievalComponent) (qs : StrOrList)
      (n u : String) (k : Nat),
      (RetrievalComponent.run r s qs n u (some k)).state.top_k = k := by
    intro r s qs n u k
    simp only [RetrievalComponent.run]
    have hl := retrieveLoop_top_k r n u ({s with top_k := k}).top_k
      qs.toList {s with top_k := k}
    cases hres : retrieveLoop r n u ({s with top_k := k}).top_k
        {s with top_k := k} qs.toList with
    | mk s1 oe =>
        rw [hres] at hl
        cases oe <;> simpa using hl
  have hr2 : ∀ (r : Retriever) (s : RetrievalComponent) (qs : StrOrList)
      (n u : String) (k : Nat), s.top_k = k →
      RetrievalComponent.run r s qs n u none =
        RetrievalComponent.run r s qs n u (some k) := by
    intro r s qs n u k hk
    have hs : ({ s with top_k := k } : RetrievalComponent) = s := by
      cases s; simp_all
    simp only [RetrievalComponent.run, hs]
    rw [hk]
  have hk1 : ∀ (rk : Ranker) (t : ReRankerComponent) (ps : List QCPair)
      (k : Nat),
      (ReRankerComponent.run rk t ps (some k)).state.top_k = k := by
    intro rk t ps k
    simp only [ReRankerComponent.run]
    have hl := rerankLoop_top_k rk ({t with top_k := k}).top_k ps
      {t with top_k := k}
    cases hres : rerankLoop rk ({t with top_k := k}).top_k
        {t with top_k := k} ps with
    | mk t1 oe =>
        rw [hres] at hl
        cases oe <;> simpa using hl
  have hk2 : ∀ (rk : Ranker) (t : ReRankerComponent) (ps : List QCPair)
      (k : Nat), t.top_k = k →
      ReRankerComponent.run rk t ps none =
        ReRankerComponent.run rk t ps (some k) := by
    intro rk t ps k hk
    have ht : ({ t with top_k := k } : ReRankerComponent) = t := by
      cases t; simp_all
    simp only [ReRankerComponent.run, ht]
    rw [hk]
  exact ⟨fun r s qs qs2 n u k =>
      ⟨hr1 r s qs n u k, hr2 r _ qs2 n u k (hr1 r s qs n u k)⟩,
    rfl,
    fun rk t ps ps2 k =>
      ⟨hk1 rk t ps k, hk2 rk _ ps2 k (hk1 rk t ps k)⟩,
    rfl⟩

end Walter
